import Mathlib

/-!
Shallow embedding of `src/optional.h` (namespace `pt`): a hand-rolled
`optional<T>` holding an occupancy flag `empty_` plus raw storage sized for
one `T`.

Modelling choices:
* The storage slot is an `Option T`: `some v` means the slot holds a live,
  fully constructed `T` whose value is `v`; `none` means the slot holds no
  live object.  The flag `empty_` is stored separately, exactly as in the
  source, so flag/storage desynchronisation is representable.
* Unchecked dereference (`operator*`) of a dead slot is undefined behaviour
  in the source; the model returns `default`.
* Move semantics of `T` are modelled by parameters: move construction
  transfers the value of the source object to the destination, and the
  moved-from object keeps the residue `mvFrom v`; the move assignment of
  `T` is the abstract binary operation `mvAsg` (destination value, source
  value).
* A throwing operation of `T` (copy constructor in `copyCtorF`, the
  constructor called by `emplaceF`) is modelled as an `Option`-valued step,
  `none` meaning the step throws; the embedding then returns the success
  flag together with the state the object is left in.
-/

namespace pt

/-- Model of `pt::nullopt_t`: a stateless tag. -/
structure nullopt_t where

/-- Model of `pt::bad_optional_access` (lines 14-21), a distinct exception
type derived from `std::logic_error`; `what` is the stored description. -/
structure bad_optional_access where
  what : String
deriving DecidableEq

/-- Model of `pt::optional<T>` (lines 23-189): raw storage plus the flag
`empty_`.  `storage_ = some v` means the slot holds a live `T` of value
`v`; `storage_ = none` means no live object is in the slot. -/
structure optional (T : Type) where
  storage_ : Option T
  empty_ : Bool
deriving DecidableEq

/-- Invariant I3 of the spec: the occupancy flag and storage liveness are
synchronised. -/
def WF {T : Type} (o : optional T) : Prop :=
  o.empty_ = true ↔ o.storage_ = none

instance instDecidableWF {T : Type} [DecidableEq T] (o : optional T) :
    Decidable (WF o) :=
  inferInstanceAs (Decidable (o.empty_ = true ↔ o.storage_ = none))

namespace optional

variable {T : Type} [Inhabited T]

/-- Model of `explicit operator bool()` (lines 131-133): `!empty_`. -/
def opBool (o : optional T) : Bool :=
  !o.empty_

/-- Model of the unchecked `operator*` (lines 123-129): reinterprets the
slot as a `T`.  On a dead slot this is undefined behaviour in the source;
the model returns `default`. -/
def star (o : optional T) : T :=
  o.storage_.getD default

/-- Model of the default constructor and `optional(nullopt_t)`
(lines 28-32): empty, storage untouched (no live object). -/
def mkEmpty : optional T :=
  { storage_ := none, empty_ := true }

/-- Model of the copy constructor (lines 34-40): copy the flag; if
occupied, placement-construct a copy of `other.value()` in the slot. -/
def copyCtor (other : optional T) : optional T :=
  { empty_ := other.empty_
    storage_ := if !other.empty_ then some (star other) else none }

/-- Model of the move constructor (lines 42-48): copy the flag; if
occupied, placement-move-construct from `other.value()`.  Returns
(destination, state of the source after the move): the flag of the source
is not changed by the source code, and its slot now holds the moved-from
residue `mvFrom v`. -/
def moveCtor (mvFrom : T → T) (other : optional T) :
    optional T × optional T :=
  ( { empty_ := other.empty_
      storage_ := if !other.empty_ then some (star other) else none },
    { empty_ := other.empty_
      storage_ := if !other.empty_ then some (mvFrom (star other))
                  else other.storage_ } )

/-- Model of `optional(const T&)` and `optional(T&&)` (lines 50-60):
occupied, holding the given value. -/
def valCtor (v : T) : optional T :=
  { storage_ := some v, empty_ := false }

/-- Model of `operator=(nullopt_t)` (lines 76-84): destroy the value if
occupied, then set the flag to empty. -/
def assignNullopt (o : optional T) : optional T :=
  { storage_ := if !o.empty_ then none else o.storage_, empty_ := true }

/-- Model of `optional::swap` (lines 154-173).  Both empty: no-op.  Both
occupied: value-level swap of the two values.  Otherwise lines 166-167
select `in = empty_ ? this : &other` and `un = empty_ ? &other : this`,
so `in` is the EMPTY side and `un` the occupied one: the code
placement-constructs into the slot of `un` (over its live object) from
the dead slot of `in` (undefined behaviour, the junk read modelled by
`star` as `default`), destroys the dead slot of `in`, and the flag writes
`un->empty_ = false; in->empty_ = true` re-assert the flags both sides
already had.  Net effect in the asymmetric case: neither flag changes and
the occupied side has its value overwritten with junk. -/
def swap (self other : optional T) : optional T × optional T :=
  if self.empty_ && other.empty_ then
    (self, other)
  else if !self.empty_ && !other.empty_ then
    ( { self with storage_ := other.storage_ },
      { other with storage_ := self.storage_ } )
  else if self.empty_ then
    ( { storage_ := none, empty_ := true },
      { storage_ := some (star self), empty_ := false } )
  else
    ( { storage_ := some (star other), empty_ := false },
      { storage_ := none, empty_ := true } )

/-- Model of `operator=(const optional&)` (lines 86-92), copy-and-swap:
`optional tmp{other}; swap(tmp);`.  `other` is taken by const reference
and never modified; the temporary is destroyed at scope exit. -/
def copyAssign (self other : optional T) : optional T :=
  (swap self (copyCtor other)).fst

/-- Model of the copy constructor (lines 34-40) when the copy constructor
of `T` may throw: `copyFn v = none` models the copy of the value `v`
throwing, in which case no optional object is created. -/
def copyCtorF (copyFn : T → Option T) (other : optional T) :
    Option (optional T) :=
  if !other.empty_ then
    match copyFn (star other) with
    | some w => some { storage_ := some w, empty_ := false }
    | none => none
  else
    some { storage_ := none, empty_ := true }

/-- Model of `operator=(const optional&)` (lines 86-92) when the copy
constructor of `T` may throw.  The temporary `tmp` is materialised before
any mutation of `*this`; if copying throws, the exception propagates and
`*this` is still in its pre-call state.  Returns (success flag, state of
`*this` afterwards). -/
def copyAssignF (copyFn : T → Option T) (self other : optional T) :
    Bool × optional T :=
  match copyCtorF copyFn other with
  | none => (false, self)
  | some tmp => (true, (swap self tmp).fst)

/-- Model of `operator=(optional&&)` (lines 94-113), four cases.  Returns
(new `*this`, state of the source afterwards): when the value of the
source is moved out, its slot keeps the residue `mvFrom v` and its flag is
not changed by the source code. -/
def moveAssign (mvFrom : T → T) (mvAsg : T → T → T)
    (self other : optional T) : optional T × optional T :=
  if self.empty_ then
    if other.empty_ then
      (self, other)
    else
      ( { storage_ := some (star other), empty_ := false },
        { other with storage_ := some (mvFrom (star other)) } )
  else
    if other.empty_ then
      ( { storage_ := none, empty_ := true }, other )
    else
      ( { self with storage_ := some (mvAsg (star self) (star other)) },
        { other with storage_ := some (mvFrom (star other)) } )

/-- Model of the checked accessor `value()` (lines 135-147): throws
`bad_optional_access` with the message "call value on empty object" when
empty, otherwise returns the contained value. -/
def value (o : optional T) : Except bad_optional_access T :=
  if o.empty_ then
    Except.error { what := "call value on empty object" }
  else
    Except.ok (star o)

/-- Model of `value_or` (lines 149-152): `empty_ ? value : **this`,
returned by value (instantiated at `U = T`). -/
def value_or (o : optional T) (v : T) : T :=
  if o.empty_ then v else star o

/-- Model of `emplace` (lines 175-184) when the constructor of `T` may
throw (`ctor = none`): if occupied, first destroy the old value and set
the flag to empty; then construct.  Returns (success flag, resulting
state). -/
def emplaceF (o : optional T) (ctor : Option T) : Bool × optional T :=
  let o1 : optional T :=
    if !o.empty_ then { storage_ := none, empty_ := true } else o
  match ctor with
  | some v => (true, { storage_ := some v, empty_ := false })
  | none => (false, o1)

end optional

variable {T : Type} [Inhabited T]

/-- Model of `operator==(const optional&, const optional&)`
(lines 191-200); `beq` is the equality of `T`. -/
def eqOptOpt (beq : T → T → Bool) (lhs rhs : optional T) : Bool :=
  if lhs.opBool != rhs.opBool then false
  else if !lhs.opBool && !rhs.opBool then true
  else beq lhs.star rhs.star

/-- Model of `operator==(const optional&, nullopt_t)` (lines 202-205). -/
def eqOptNull (o : optional T) (_ : nullopt_t) : Bool :=
  !o.opBool

/-- Model of `operator==(nullopt_t, const optional&)` (lines 207-210). -/
def eqNullOpt (_ : nullopt_t) (o : optional T) : Bool :=
  !o.opBool

/-- Model of `operator==(const optional&, const T&)` (lines 212-215). -/
def eqOptVal (beq : T → T → Bool) (o : optional T) (v : T) : Bool :=
  if o.opBool then beq o.star v else false

/-- Model of `operator==(const T&, const optional&)` (lines 217-220). -/
def eqValOpt (beq : T → T → Bool) (v : T) (o : optional T) : Bool :=
  if o.opBool then beq o.star v else false

/-- A well-formed occupied optional holds a live value. -/
theorem wf_occupied {T : Type} (o : optional T) (h : WF o)
    (ho : o.empty_ = false) : ∃ v, o.storage_ = some v := by
  cases hs : o.storage_ with
  | none => rw [h.mpr hs] at ho; exact absurd ho (by simp)
  | some v => exact ⟨v, rfl⟩

/-- A well-formed empty optional holds no live value. -/
theorem wf_empty {T : Type} (o : optional T) (h : WF o)
    (ho : o.empty_ = true) : o.storage_ = none :=
  h.mp ho

/-- A well-formed optional with a live value is flagged occupied. -/
theorem wf_some_flag {T : Type} (o : optional T) (h : WF o) {v : T}
    (hv : o.storage_ = some v) : o.empty_ = false := by
  cases he : o.empty_ with
  | false => rfl
  | true => rw [h.mp he] at hv; exact absurd hv (by simp)

end pt

/-- C1 (code bug): the claim matches the spec and the evident intent of
the source (the pointer for the side the value is in is named `in`, the
empty side `un`), but lines 166-167 select `in = empty_ ? this : &other`,
which makes `in` the EMPTY side.  At `optional<int> x{5}; optional<int> y;
x.swap(y);` the program therefore leaves both occupancy flags as they
were: `x` stays flagged occupied (its live value overwritten from the
dead slot of `y`) and `y` stays empty with no live object — instead of
the claimed transfer of the value into `y` with both flags flipped. -/
theorem swap_asymmetric_code_bug :
    (pt.optional.swap (pt.optional.valCtor (5 : Nat))
      pt.optional.mkEmpty).1.empty_ = false ∧
    (pt.optional.swap (pt.optional.valCtor (5 : Nat))
      pt.optional.mkEmpty).2.empty_ = true ∧
    (pt.optional.swap (pt.optional.valCtor (5 : Nat))
      pt.optional.mkEmpty).2.storage_ = none := by
  decide

/-- C2 (code bug): copy-assignment is copy-and-swap
(`optional tmp{other}; swap(tmp);`), so the inverted `in`/`un` selection
of lines 166-167 leaks into its mixed-occupancy cases: assigning an
occupied `optional<int>(2)` to an empty target leaves the target empty
and not equal (by `operator==`) to the source, against the claim that
every occupied/empty combination ends with the target equal to the
source. -/
theorem copyAssign_mixed_code_bug :
    pt.optional.copyAssign (pt.optional.mkEmpty : pt.optional Nat)
      (pt.optional.valCtor 2) = ⟨none, true⟩ ∧
    pt.eqOptOpt (fun x y : Nat => decide (x = y))
      (pt.optional.copyAssign pt.optional.mkEmpty (pt.optional.valCtor 2))
      (pt.optional.valCtor 2) = false := by
  decide

/-- C10: copy self-assignment is a semantic no-op: for every well-formed
`optional<T>` instance `a`, empty or occupied, `a = a` leaves `a` equal
(by `operator==`) to its prior value.  Self-assignment only exercises the
both-empty and both-occupied branches of `swap` (the temporary always has
the occupancy of `a`), so the asymmetric defect of lines 166-167 is never
reached. -/
theorem self_assignment_noop {T : Type} [Inhabited T]
    (beq : T → T → Bool) (hrefl : ∀ x, beq x x = true)
    (a : pt.optional T) (ha : pt.WF a) :
    pt.eqOptOpt beq (pt.optional.copyAssign a a) a = true := by
  cases hA : a.empty_ with
  | false =>
    obtain ⟨v, hv⟩ := pt.wf_occupied a ha hA
    simp [pt.optional.copyAssign, pt.optional.copyCtor, pt.optional.swap,
      pt.eqOptOpt, pt.optional.opBool, pt.optional.star, hA, hv, hrefl]
  | true =>
    simp [pt.optional.copyAssign, pt.optional.copyCtor, pt.optional.swap,
      pt.eqOptOpt, pt.optional.opBool, hA]

/-- Witness for C10 at `a = optional(3)` over `Nat`. -/
theorem self_assignment_noop_witness :
    pt.eqOptOpt (fun x y : Nat => decide (x = y))
      (pt.optional.copyAssign (pt.optional.valCtor 3) (pt.optional.valCtor 3))
      (pt.optional.valCtor 3) = true :=
  self_assignment_noop (fun x y : Nat => decide (x = y))
    (fun x => by simp) (pt.optional.valCtor 3) (by decide)

/-- C5: if copying the value of the source throws during copy-assignment
(the construction of the temporary fails), the exception propagates and
the target is returned in exactly its pre-call state: strong exception
safety through the temporary-and-swap strategy. -/
theorem copyAssign_strong_exception_safety {T : Type} [Inhabited T]
    (copyFn : T → Option T) (a b : pt.optional T)
    (hthrow : pt.optional.copyCtorF copyFn b = none) :
    pt.optional.copyAssignF copyFn a b = (false, a) := by
  simp [pt.optional.copyAssignF, hthrow]

/-- Witness for C5: a copy of any value throws; the occupied target `a`
is left exactly as it was. -/
theorem copyAssign_strong_exception_safety_witness :
    pt.optional.copyAssignF (fun _ => (none : Option Nat))
      (pt.optional.valCtor 1) (pt.optional.valCtor 2) =
      (false, pt.optional.valCtor 1) :=
  copyAssign_strong_exception_safety (fun _ => (none : Option Nat))
    (pt.optional.valCtor 1) (pt.optional.valCtor 2) rfl

/-- C9: if the constructor of `T` throws during `emplace`, the optional is
left empty: the flag is false and no live object is in the slot (for an
occupied target, the old value was already destroyed and the flag set to
empty before the construction was attempted), so the instance remains
safely destructible with no leak and no double-destroy. -/
theorem emplace_fail_leaves_empty {T : Type} [Inhabited T]
    (o : pt.optional T) (hwf : pt.WF o) :
    (pt.optional.emplaceF o none).1 = false ∧
    (pt.optional.emplaceF o none).2.empty_ = true ∧
    (pt.optional.emplaceF o none).2.storage_ = none := by
  cases h : o.empty_ with
  | false => simp [pt.optional.emplaceF, h]
  | true => simp [pt.optional.emplaceF, h, pt.wf_empty o hwf h]

/-- Witness for C9 at an occupied `optional(5)` over `Nat`. -/
theorem emplace_fail_leaves_empty_witness :
    (pt.optional.emplaceF (pt.optional.valCtor (5 : Nat)) none).1 = false ∧
    (pt.optional.emplaceF (pt.optional.valCtor (5 : Nat)) none).2.empty_ =
      true ∧
    (pt.optional.emplaceF (pt.optional.valCtor (5 : Nat)) none).2.storage_ =
      none :=
  emplace_fail_leaves_empty (pt.optional.valCtor 5) (by decide)

/-- C3 counterexample: the claim says move-construction leaves the source
empty, but the move constructor (lines 42-48) copies the flag of the
source and never resets it.  At `optional<int> src{5}` (with the moved-from
residue of an `int` being its old value), after move-construction the
source is still flagged occupied and still holds a live object. -/
theorem moveCtor_claim_counterexample :
    (pt.optional.moveCtor id (pt.optional.valCtor (5 : Nat))).2.empty_ =
      false ∧
    ¬ ((pt.optional.moveCtor id (pt.optional.valCtor (5 : Nat))).2.empty_ =
      true) := by
  decide

/-- C3 amended: move-constructing from an occupied source produces a
destination occupied with the value the source held before the move; the
source is NOT emptied: its occupancy flag is unchanged (it stays
occupied), its slot holds the moved-from residue of its old value, and it
remains well-formed, hence destructible, and assignable-over (assigning
`nullopt` to it empties it). -/
theorem moveCtor_relocates_value {T : Type} [Inhabited T]
    (mvFrom : T → T) (o : pt.optional T)
    (ho : o.empty_ = false) :
    ∀ v, o.storage_ = some v →
      (pt.optional.moveCtor mvFrom o).1 = ⟨some v, false⟩ ∧
      (pt.optional.moveCtor mvFrom o).2 = ⟨some (mvFrom v), false⟩ ∧
      pt.WF (pt.optional.moveCtor mvFrom o).2 ∧
      pt.optional.assignNullopt (pt.optional.moveCtor mvFrom o).2 =
        pt.optional.mkEmpty := by
  intro v hv
  refine ⟨?_, ?_, ?_, ?_⟩ <;>
    simp [pt.optional.moveCtor, pt.optional.star, pt.optional.assignNullopt,
      pt.optional.mkEmpty, pt.WF, ho, hv]

/-- Witness for the amended C3 at `optional(5)` over `Nat` with identity
residue. -/
theorem moveCtor_relocates_value_witness :
    (pt.optional.moveCtor id (pt.optional.valCtor (5 : Nat))).1 =
      ⟨some 5, false⟩ ∧
    (pt.optional.moveCtor id (pt.optional.valCtor (5 : Nat))).2 =
      ⟨some 5, false⟩ := by
  obtain ⟨h1, h2, -, -⟩ :=
    moveCtor_relocates_value id (pt.optional.valCtor (5 : Nat))
      rfl 5 rfl
  exact ⟨h1, h2⟩

/-- C4: move-assignment follows the four-case table of lines 94-113:
empty from empty is a no-op; empty from occupied move-constructs the value
of the source into the destination and marks it occupied; occupied from
empty destroys the value of the destination and marks it empty; occupied
from occupied applies the move-assignment of `T` to the existing value of
the destination in place (the result is `mvAsg x y`, with no
destroy-and-reconstruct: the flag stays occupied and the slot keeps a live
object throughout). -/
theorem moveAssign_four_cases {T : Type} [Inhabited T]
    (mvFrom : T → T) (mvAsg : T → T → T)
    (a b : pt.optional T) (ha : pt.WF a) (hb : pt.WF b) :
    (a.empty_ = true → b.empty_ = true →
      pt.optional.moveAssign mvFrom mvAsg a b = (a, b)) ∧
    (a.empty_ = true → ∀ v, b.storage_ = some v →
      (pt.optional.moveAssign mvFrom mvAsg a b).1 = ⟨some v, false⟩) ∧
    (a.empty_ = false → b.empty_ = true →
      (pt.optional.moveAssign mvFrom mvAsg a b).1 = ⟨none, true⟩) ∧
    (∀ x y, a.storage_ = some x → b.storage_ = some y →
      (pt.optional.moveAssign mvFrom mvAsg a b).1 =
        ⟨some (mvAsg x y), false⟩) := by
  refine ⟨?_, ?_, ?_, ?_⟩
  · intro hA hB
    simp [pt.optional.moveAssign, hA, hB]
  · intro hA v hv
    have hB : b.empty_ = false := pt.wf_some_flag b hb hv
    simp [pt.optional.moveAssign, hA, hB, pt.optional.star, hv]
  · intro hA hB
    simp [pt.optional.moveAssign, hA, hB]
  · intro x y hx hy
    have hA : a.empty_ = false := pt.wf_some_flag a ha hx
    have hB : b.empty_ = false := pt.wf_some_flag b hb hy
    simp [pt.optional.moveAssign, hA, hB, pt.optional.star, hx, hy]

/-- Witness for C4 in the occupied-from-occupied case, `1 := move(2)`,
with the move-assignment of `Nat` taking the value of the source. -/
theorem moveAssign_four_cases_witness :
    (pt.optional.moveAssign id (fun _ s => s)
      (pt.optional.valCtor (1 : Nat)) (pt.optional.valCtor 2)).1 =
      ⟨some 2, false⟩ :=
  (moveAssign_four_cases id (fun _ s => s)
    (pt.optional.valCtor 1) (pt.optional.valCtor 2)
    (by decide) (by decide)).2.2.2 1 2 rfl rfl

/-- C6: the checked accessor `value()` fails with the distinct
`bad_optional_access` error carrying the non-empty description
"call value on empty object" exactly when the container is empty, and
returns the contained value when the container is occupied. -/
theorem value_checked_access {T : Type} [Inhabited T]
    (o : pt.optional T) :
    (o.empty_ = true →
      pt.optional.value o =
        Except.error { what := "call value on empty object" } ∧
      "call value on empty object" ≠ "") ∧
    (o.empty_ = false → ∀ v, o.storage_ = some v →
      pt.optional.value o = Except.ok v) := by
  constructor
  · intro h
    refine ⟨by simp [pt.optional.value, h], by decide⟩
  · intro h v hv
    simp [pt.optional.value, h, pt.optional.star, hv]

/-- Witness for C6: empty and occupied `optional<Nat>`. -/
theorem value_checked_access_witness :
    pt.optional.value (pt.optional.mkEmpty : pt.optional Nat) =
      Except.error { what := "call value on empty object" } ∧
    pt.optional.value (pt.optional.valCtor (3 : Nat)) = Except.ok 3 :=
  ⟨((value_checked_access pt.optional.mkEmpty).1 rfl).1,
   (value_checked_access (pt.optional.valCtor 3)).2 rfl 3 rfl⟩

/-- C8: `value_or` returns the contained value when the container is
occupied and the fallback when it is empty; it is a total function
returning by value (the container, taken by const reference, is
unchanged). -/
theorem value_or_spec {T : Type} [Inhabited T]
    (o : pt.optional T) (fb : T) (hwf : pt.WF o) :
    (o.empty_ = true → pt.optional.value_or o fb = fb) ∧
    (∀ v, o.storage_ = some v → pt.optional.value_or o fb = v) := by
  constructor
  · intro h
    simp [pt.optional.value_or, h]
  · intro v hv
    have h : o.empty_ = false := pt.wf_some_flag o hwf hv
    simp [pt.optional.value_or, h, pt.optional.star, hv]

/-- Witness for C8: empty with fallback 7 gives 7; occupied holding 3 with
fallback 7 gives 3. -/
theorem value_or_spec_witness :
    pt.optional.value_or (pt.optional.mkEmpty : pt.optional Nat) 7 = 7 ∧
    pt.optional.value_or (pt.optional.valCtor (3 : Nat)) 7 = 3 :=
  ⟨(value_or_spec pt.optional.mkEmpty 7 (by decide)).1 rfl,
   (value_or_spec (pt.optional.valCtor 3) 7 (by decide)).2 3 rfl⟩

/-- C7: the equality laws of lines 191-220, for every pair of well-formed
`optional<T>` instances, every bare value and the `nullopt` tag: two
containers are equal iff both are empty or both are occupied with values
equal by the equality of `T`; a container equals the tag iff it is empty,
in either argument order; a container equals a bare value iff it is
occupied and its contained value equals that value, in either order (an
empty container never equals any bare value); and container equality is
reflexive and symmetric. -/
theorem equality_laws {T : Type} [Inhabited T] (beq : T → T → Bool)
    (hrefl : ∀ x, beq x x = true) (hsymm : ∀ x y, beq x y = beq y x)
    (a b : pt.optional T) (v : T) (ha : pt.WF a) (hb : pt.WF b) :
    (pt.eqOptOpt beq a b = true ↔
      (a.empty_ = true ∧ b.empty_ = true) ∨
      (∃ x y, a.storage_ = some x ∧ b.storage_ = some y ∧ beq x y = true)) ∧
    (pt.eqOptNull a {} = true ↔ a.empty_ = true) ∧
    (pt.eqNullOpt {} a = true ↔ a.empty_ = true) ∧
    (pt.eqOptVal beq a v = true ↔
      ∃ x, a.storage_ = some x ∧ beq x v = true) ∧
    (pt.eqValOpt beq v a = true ↔
      ∃ x, a.storage_ = some x ∧ beq x v = true) ∧
    pt.eqOptOpt beq a a = true ∧
    pt.eqOptOpt beq a b = pt.eqOptOpt beq b a := by
  refine ⟨?_, ?_, ?_, ?_, ?_, ?_, ?_⟩
  · cases hA : a.empty_ <;> cases hB : b.empty_
    · obtain ⟨x, hx⟩ := pt.wf_occupied a ha hA
      obtain ⟨y, hy⟩ := pt.wf_occupied b hb hB
      simp [pt.eqOptOpt, pt.optional.opBool, pt.optional.star,
        hA, hB, hx, hy]
    · obtain ⟨x, hx⟩ := pt.wf_occupied a ha hA
      simp [pt.eqOptOpt, pt.optional.opBool, hA, hB,
        pt.wf_empty b hb hB]
    · obtain ⟨y, hy⟩ := pt.wf_occupied b hb hB
      simp [pt.eqOptOpt, pt.optional.opBool, hA, hB,
        pt.wf_empty a ha hA]
    · simp [pt.eqOptOpt, pt.optional.opBool, hA, hB]
  · cases hA : a.empty_ <;>
      simp [pt.eqOptNull, pt.optional.opBool, hA]
  · cases hA : a.empty_ <;>
      simp [pt.eqNullOpt, pt.optional.opBool, hA]
  · cases hA : a.empty_
    · obtain ⟨x, hx⟩ := pt.wf_occupied a ha hA
      simp [pt.eqOptVal, pt.optional.opBool, pt.optional.star, hA, hx]
    · simp [pt.eqOptVal, pt.optional.opBool, hA, pt.wf_empty a ha hA]
  · cases hA : a.empty_
    · obtain ⟨x, hx⟩ := pt.wf_occupied a ha hA
      simp [pt.eqValOpt, pt.optional.opBool, pt.optional.star, hA, hx]
    · simp [pt.eqValOpt, pt.optional.opBool, hA, pt.wf_empty a ha hA]
  · cases hA : a.empty_ <;>
      simp [pt.eqOptOpt, pt.optional.opBool, hA, hrefl]
  · cases hA : a.empty_ <;> cases hB : b.empty_ <;>
      simp [pt.eqOptOpt, pt.optional.opBool, hA, hB, hsymm]

/-- Witness for C7 at occupied `optional(3)` and `optional(4)` over `Nat`
with decidable-equality as the value equality. -/
theorem equality_laws_witness :
    pt.eqOptOpt (fun x y : Nat => decide (x = y))
      (pt.optional.valCtor 3) (pt.optional.valCtor 3) = true :=
  (equality_laws (fun x y : Nat => decide (x = y))
    (fun x => by simp) (fun x y => decide_eq_decide.mpr eq_comm)
    (pt.optional.valCtor 3) (pt.optional.valCtor 4) 0
    (by decide) (by decide)).2.2.2.2.2.1
